import Mathlib

/-!
# Verification of the `thin_trait_object` transformation core

A shallow embedding of the code-generation logic of the `thin_trait_object`
crate (src/attr.rs, src/vtable.rs, src/repr.rs, src/trait_object.rs,
src/inheritance.rs, src/marker_traits.rs, src/options.rs).  The macro is a
pure source-to-source transformer; every generator is embedded as a total
Lean function from the parsed inputs to a structured description of the
emitted items, mirroring the `quote!` templates of the source constructor
by constructor.  Token-level concerns (spans, hygiene, whitespace) are
outside the model; everything the generators branch on or write out is
kept.
-/

namespace TTO

/-- Identifiers are modelled as strings (`proc_macro2::Ident`). -/
abbrev Ident := String

/-- `syn::Path`, restricted to what the crate reads: the leading `::` flag
and the ordered segment identifiers (no segment ever carries path
arguments in the positions the macro inspects). -/
structure Path where
  leadingColon : Bool
  segments : List Ident
  deriving DecidableEq, Repr

/-- `syn::Path::get_ident`: a path is a plain identifier when it has no
leading colon and exactly one segment. -/
def Path.getIdent (p : Path) : Option Ident :=
  if !p.leadingColon ∧ p.segments.length = 1 then p.segments.head? else none

/-- A one-segment path out of an identifier (how an `Ident` is viewed as a
path, e.g. by `IdentOrPath::into_path`). -/
def identToPath (i : Ident) : Path := ⟨false, [i]⟩

/-- `crate::util::IdentOrPath::simple_name`.  Modelled from the spec: the
`util` module holding `IdentOrPath` is not among the provided sources; per
the spec names are "derived deterministically from the interface name" and
the derivation replaces the final path segment, so `simple_name` is the
last segment of the path. -/
def Path.simple_name (p : Path) : Ident := p.segments.getLastD ""

/-- `crate::util::IdentOrPath::with_simple_name`.  Modelled from the spec
(see `Path.simple_name`): replaces the final segment of the path, keeping
the qualification prefix. -/
def Path.with_simple_name (p : Path) (i : Ident) : Path :=
  ⟨p.leadingColon, p.segments.dropLast ++ [i]⟩

/-- `syn::Lifetime` — only the identifier (without the tick) is read. -/
structure Lifetime where
  ident : Ident
  deriving DecidableEq, Repr

/-- `syn::TraitBound`, restricted to the `path` field: the only field the
splitter and the marker filters read or propagate. -/
structure TraitBound where
  path : Path
  deriving DecidableEq, Repr

/-- `syn::TypeParamBound`: a supertrait-list element is a trait bound or a
lifetime bound. -/
inductive TypeParamBound where
  | traitB (b : TraitBound)
  | lifetimeB (l : Lifetime)
  deriving DecidableEq, Repr

/-- `marker_traits::MarkerTrait`: a capability-marker path plus whether the
marker impl must be emitted as an `unsafe impl` (`unsafety.is_some()` of
the source is modelled as the Bool `uflag`). -/
structure MarkerTrait where
  uflag : Bool
  path : Path
  deriving DecidableEq, Repr

/-- `marker_traits::supertraits_to_markers_and_lifetimes`: walks the
supertrait list once, pushing accepted trait bounds onto the marker list
and every lifetime bound onto the lifetime list (source: the `for` loop in
src/marker_traits.rs, lines 47–75). -/
def supertraits_to_markers_and_lifetimes :
    List TypeParamBound → (TraitBound → Option (TraitBound × Bool)) →
    List MarkerTrait × List Lifetime
  | [], _ => ([], [])
  | b :: rest, f =>
    let tail := supertraits_to_markers_and_lifetimes rest f
    match b with
    | .traitB tb =>
      match f tb with
      | some (tb2, isU) => (⟨isU, tb2.path⟩ :: tail.1, tail.2)
      | none => tail
    | .lifetimeB l => (tail.1, l :: tail.2)

/-- The marker list the spec's contract describes: the trait bounds the
predicate accepts, in source order, carrying the returned path and
unsafety. -/
def acceptedMarkers (f : TraitBound → Option (TraitBound × Bool)) :
    List TypeParamBound → List MarkerTrait :=
  List.filterMap fun b =>
    match b with
    | .traitB tb => (f tb).map fun p => ⟨p.2, p.1.path⟩
    | .lifetimeB _ => none

/-- The lifetime list the spec's contract describes: every lifetime bound,
in source order. -/
def lifetimeBounds : List TypeParamBound → List Lifetime :=
  List.filterMap fun b =>
    match b with
    | .traitB _ => none
    | .lifetimeB l => some l

/-- The default capability lookup table (src/marker_traits.rs `LOOKUP_TABLE`):
short name, fully-qualified path, and unsafety for the five well-known
markers. -/
def lookupTable : List (String × Path × Bool) :=
  [ ("Send", ⟨true, ["core", "marker", "Send"]⟩, true),
    ("Sync", ⟨true, ["core", "marker", "Sync"]⟩, true),
    ("Unpin", ⟨true, ["core", "marker", "Unpin"]⟩, false),
    ("UnwindSafe", ⟨true, ["std", "panic", "UnwindSafe"]⟩, false),
    ("RefUnwindSafe", ⟨true, ["std", "panic", "RefUnwindSafe"]⟩, false) ]

/-- `marker_traits::default_marker_filter`: recognizes a bound whose path
equals a table entry's short name (one bare segment) or its full path. -/
def default_marker_filter (bound : TraitBound) : Option (TraitBound × Bool) :=
  lookupTable.findSome? fun e =>
    if bound.path = identToPath e.1 ∨ bound.path = e.2.1 then
      some (bound, e.2.2)
    else none

/-! ## Interface items and the normalizer (src/vtable.rs, item conversion) -/

/-- The diagnostics the transformation can abort with.  Each constructor
corresponds to one `syn::Error::new` site of the source; the exact message
text is recovered by `SynError.message`. -/
inductive SynError where
  | assocFnUnsupported
  | byValueReceiverUnsupported
  | asyncUnsupported
  | whereClauseNotObjectSafe
  | genericTypeParamNotObjectSafe
  | genericConstParamNotObjectSafe
  | assocConstUnsupported
  | assocTypeUnsupported
  | macItemUnsupported
  | unknownItemUnsupported
  | genericTraitUnsupported
  | inheritanceRequiresFeature
  | customVtableNameUnsupported
  | deriveOnTraitObject
  | reprOnTraitObject
  deriving DecidableEq, Repr

/-- The message string of each diagnostic, verbatim from the source. -/
def SynError.message : SynError → String
  | .assocFnUnsupported =>
    "traits with associated functions cannot be made into trait objects"
  | .byValueReceiverUnsupported =>
    "`#[thin_trait_object]` does not support pass-by-value just yet"
  | .asyncUnsupported =>
    "traits with async methods cannot be made into trait objects"
  | .whereClauseNotObjectSafe =>
    "trait methods with `where` clauses are not object-safe"
  | .genericTypeParamNotObjectSafe =>
    "generic type parameters are not object-safe"
  | .genericConstParamNotObjectSafe =>
    "generic constant parameters are not object-safe"
  | .assocConstUnsupported =>
    "traits with associated constants cannot be made into trait objects"
  | .assocTypeUnsupported =>
    "traits with associated types cannot be made into trait objects"
  | .macItemUnsupported =>
    "`#[thin_trait_object]` cannot expand macros, please type out the trait items directly"
  | .unknownItemUnsupported =>
    "traits with this kind of item cannot be made into trait objects (item type not recognized)"
  | .genericTraitUnsupported =>
    "generic traits are not yet supported by #[thin_trait_object]"
  | .inheritanceRequiresFeature =>
    "ERROR: Inheritance is experimental, and requires feature flag: `cfg!(feature=\"experimental-inheritance\")`"
  | .customVtableNameUnsupported =>
    "When a type is a possible super-trait, vtable names can't currently be customized"
  | .deriveOnTraitObject =>
    "cannot use derive macros on the thin trait object structure because some derived traits may cause undefined behavior when derived on it, such as `Copy`"
  | .reprOnTraitObject =>
    "the trait object structure already has a `#[repr(transparent)]` annotation"

/-- `syn::Attribute`, restricted to the path (the source only reads
`path.get_ident()` and `path.segments[0].ident`) plus an uninterpreted
payload tag standing for the attribute's token tree. -/
structure Attribute where
  path : Path
  tokens : String
  deriving DecidableEq, Repr

/-- Types, as far as the generators build or forward them.  Types taken
from the source interface are carried opaquely (`named`); the only type
the generators construct themselves is `*mut ::core::ffi::c_void`. -/
inductive Ty where
  | pathT (p : Path)
  | ptr (mutable : Bool) (elem : Ty)
  | named (tag : String)
  deriving DecidableEq, Repr

/-- `::core::ffi::c_void` (built by `define_path![::, "core", "ffi", "c_void"]`). -/
def cVoid : Ty := .pathT ⟨true, ["core", "ffi", "c_void"]⟩

/-- Patterns, as far as `VtableFnArg::try_from` distinguishes them: a plain
identifier pattern keeps its name, everything else loses it. -/
inductive Pat where
  | identP (i : Ident)
  | otherP
  deriving DecidableEq, Repr

/-- `syn::Receiver`: attributes, the optional `&`/`&'a` (with its optional
lifetime), and mutability.  `reference.is_none()` means a by-value `self`. -/
structure Receiver where
  attrs : List Attribute
  reference : Option (Option Lifetime)
  mutability : Bool
  deriving DecidableEq, Repr

/-- `syn::BareFnArg`: attributes, optional name, type. -/
structure BareFnArg where
  attrs : List Attribute
  name : Option Ident
  ty : Ty
  deriving DecidableEq, Repr

/-- `syn::FnArg`: typed argument (attrs, pattern, type) or receiver. -/
inductive FnArg where
  | typed (attrs : List Attribute) (pat : Pat) (ty : Ty)
  | receiver (r : Receiver)
  deriving DecidableEq, Repr

/-- `vtable::VtableFnArg`. -/
inductive VtableFnArg where
  | normal (a : BareFnArg)
  | receiver (r : Receiver)
  deriving DecidableEq, Repr

/-- `VtableFnArg::into_bare_arg_with_ptr_receiver`: a receiver becomes an
unnamed `*mut ::core::ffi::c_void` argument keeping its attributes; a
normal argument is unchanged. -/
def VtableFnArg.into_bare_arg_with_ptr_receiver : VtableFnArg → BareFnArg
  | .normal a => a
  | .receiver r => ⟨r.attrs, none, .ptr true cVoid⟩

/-- `impl TryFrom<FnArg> for VtableFnArg` (src/vtable.rs lines 226–251):
by-value receivers are rejected, everything else converts. -/
def VtableFnArg.tryFromFnArg : FnArg → Except SynError VtableFnArg
  | .typed attrs pat ty =>
    .ok (.normal ⟨attrs,
      match pat with
      | .identP i => some i
      | .otherP => none, ty⟩)
  | .receiver r =>
    if r.reference.isNone then .error .byValueReceiverUnsupported
    else .ok (.receiver r)

/-- `syn::LifetimeDef`, restricted to the lifetime itself. -/
structure LifetimeDef where
  lifetime : Lifetime
  deriving DecidableEq, Repr

/-- `syn::GenericParam`. -/
inductive GenericParam where
  | lifetimeP (l : LifetimeDef)
  | typeP (name : Ident)
  | constP (name : Ident)
  deriving DecidableEq, Repr

/-- `syn::Generics`, restricted to the parameter list and the presence of a
`where` clause. -/
structure Generics where
  params : List GenericParam
  whereClause : Bool
  deriving DecidableEq, Repr

/-- The parameter walk of `vtable::generics_to_lifetimes`: the first
non-lifetime parameter aborts. -/
def collectLifetimes : List GenericParam → Except SynError (List LifetimeDef)
  | [] => .ok []
  | .lifetimeP l :: rest => do
    let tail ← collectLifetimes rest
    pure (l :: tail)
  | .typeP _ :: _ => .error .genericTypeParamNotObjectSafe
  | .constP _ :: _ => .error .genericConstParamNotObjectSafe

/-- `vtable::generics_to_lifetimes`: rejects `where` clauses and
non-lifetime generic parameters, keeps the lifetimes in order (as the HRTB
lifetime list of the function pointer). -/
def generics_to_lifetimes (g : Generics) : Except SynError (List LifetimeDef) :=
  if g.whereClause then .error .whereClauseNotObjectSafe
  else collectLifetimes g.params

/-- `syn::Signature`, restricted to the fields the macro reads. -/
structure Signature where
  constness : Bool
  asyncness : Bool
  uflag : Bool
  abi : Option String
  ident : Ident
  generics : Generics
  inputs : List FnArg
  variadic : Bool
  output : Ty
  deriving DecidableEq, Repr

/-- `syn::Signature::receiver` (syn 1.x): the first input, when it is a
receiver.  Typed `self: T` receivers do not occur in the modelled inputs. -/
def Signature.receiver (s : Signature) : Option Receiver :=
  match s.inputs.head? with
  | some (.receiver r) => some r
  | _ => none

/-- `syn::TraitItemMethod`, restricted to its signature. -/
structure TraitItemMethod where
  sig : Signature
  deriving DecidableEq, Repr

/-- `syn::TraitItem`: method, associated const, associated type,
unexpanded macro invocation, or an unrecognized kind. -/
inductive TraitItem where
  | methodI (m : TraitItemMethod)
  | constI (name : Ident)
  | typeI (name : Ident)
  | macI
  | otherI
  deriving DecidableEq, Repr

/-- `vtable::VtableItem`: the canonical method descriptor.  `uflag` models
`unsafety: Option<Unsafe>` as `is_some`. -/
structure VtableItem where
  lifetimes : List LifetimeDef
  uflag : Bool
  abi : Option String
  name : Ident
  inputs : List VtableFnArg
  variadic : Bool
  output : Ty
  deriving DecidableEq, Repr

/-- `VtableItem::make_unsafe` (named `promoteU` here): marks the item
unsafe (setting an already-set flag is a no-op in the source, so the Bool
is simply forced to `true`). -/
def VtableItem.promoteU (v : VtableItem) : VtableItem := { v with uflag := true }

/-- `VtableItem::make_raw`: replaces every receiver input by the erased
`*mut c_void` argument and reports whether any receiver was replaced. -/
def VtableItem.make_raw (v : VtableItem) : Bool × VtableItem :=
  (v.inputs.any fun a =>
    match a with
    | .receiver _ => true
    | .normal _ => false,
   { v with inputs := v.inputs.map fun a => .normal a.into_bare_arg_with_ptr_receiver })

/-- The function-pointer type written into a vtable slot
(`VtableItem::to_function_pointer`). -/
structure FnPtrTy where
  lifetimes : List LifetimeDef
  uflag : Bool
  abi : Option String
  inputs : List VtableFnArg
  variadic : Bool
  output : Ty
  deriving DecidableEq, Repr

/-- `VtableItem::to_function_pointer`. -/
def VtableItem.to_function_pointer (v : VtableItem) : FnPtrTy :=
  ⟨v.lifetimes, v.uflag, v.abi, v.inputs, v.variadic, v.output⟩

/-- `vtable::lifetimes_to_generics`. -/
def lifetimes_to_generics (lts : List LifetimeDef) : Generics :=
  ⟨lts.map .lifetimeP, false⟩

/-- The input walk of `VtableItem::into_signature`: normal arguments
become typed arguments (an unnamed one receives `default_argname n`, and
only then is the counter advanced — mirroring the closure in the source),
receivers stay receivers. -/
def intoSigInputs (f : Nat → Ident) : List VtableFnArg → Nat → List FnArg
  | [], _ => []
  | .normal a :: rest, n =>
    match a.name with
    | some i => .typed a.attrs (.identP i) a.ty :: intoSigInputs f rest n
    | none => .typed a.attrs (.identP (f n)) a.ty :: intoSigInputs f rest (n + 1)
  | .receiver r :: rest, n => .receiver r :: intoSigInputs f rest n

/-- `VtableItem::into_signature`. -/
def VtableItem.into_signature (v : VtableItem) (default_argname : Nat → Ident) :
    Signature :=
  ⟨false, false, v.uflag, v.abi, v.name, lifetimes_to_generics v.lifetimes,
    intoSigInputs default_argname v.inputs 0, v.variadic, v.output⟩

/-- `impl TryFrom<TraitItemMethod> for VtableItem` (src/vtable.rs lines
336–367): the receiver check comes first, then the async check, then the
generics conversion, then the input conversion. -/
def VtableItem.tryFromMethod (m : TraitItemMethod) : Except SynError VtableItem := do
  let s := m.sig
  if s.receiver.isNone then
    throw .assocFnUnsupported
  if s.asyncness then
    throw .asyncUnsupported
  let lts ← generics_to_lifetimes s.generics
  let inputs ← s.inputs.mapM VtableFnArg.tryFromFnArg
  pure ⟨lts, s.uflag, s.abi, s.ident, inputs, s.variadic, s.output⟩

/-- `impl TryFrom<TraitItem> for VtableItem` (src/vtable.rs lines 441–467). -/
def VtableItem.tryFromItem : TraitItem → Except SynError VtableItem
  | .methodI m => VtableItem.tryFromMethod m
  | .constI _ => .error .assocConstUnsupported
  | .typeI _ => .error .assocTypeUnsupported
  | .macI => .error .macItemUnsupported
  | .otherI => .error .unknownItemUnsupported

/-! ## The dispatch-table generator (src/vtable.rs `generate_vtable`) -/

/-- `syn::Visibility`, carried through unchanged by the generators. -/
inductive Visibility where
  | publ
  | inherited
  deriving DecidableEq, Repr

/-- One field of the generated vtable struct, in the order the `quote!`
template at src/vtable.rs lines 134–142 writes them. -/
inductive VtableField where
  | superField (superVt : Path)
  | sizeField
  | alignField
  | methodField (name : Ident) (ty : FnPtrTy)
  | dropField (abi : Option String)
  deriving DecidableEq, Repr

/-- The body of the generated `invoke_drop`: forward into the embedded
super-table, or call the local `drop` slot. -/
inductive DropImpl where
  | forwardToSuper
  | callLocalDrop
  deriving DecidableEq, Repr

/-- The miniature expression language of the generated `Debug`/`Hash`
impls. -/
inductive Expr where
  | selfField (f : Ident)
  | castMutUnit (e : Expr)
  | refE (e : Expr)
  | callHash (e : Expr)
  deriving DecidableEq, Repr

/-- One `.field(#namelit, &(self.#name as *mut ()))` line of the generated
`Debug` impl. -/
structure DebugLine where
  fieldLit : String
  value : Expr
  deriving DecidableEq, Repr

/-- The generated vtable type and its impls, as structured data. -/
structure GeneratedVtable where
  derives : List String
  attributes : List Attribute
  vis : Visibility
  name : Ident
  fields : List VtableField
  dropImpl : DropImpl
  debugName : String
  debugLines : List DebugLine
  hashLines : List Expr
  deriving DecidableEq, Repr

/-- `vtable::repr_attribute`: the `#[repr(C)]` attribute. -/
def repr_attribute : Attribute := ⟨⟨false, ["repr"]⟩, "C"⟩

/-- The `all_attributes` block of `generate_vtable`: the user attributes in
order, followed by `#[repr(C)]` unless one of them is already a `repr`. -/
def all_attributes (attrs : List Attribute) : List Attribute :=
  if attrs.any fun a => a.path.getIdent = some "repr" then attrs
  else attrs ++ [repr_attribute]

/-- `inheritance::super_vtable_type`: the super-interface's table type
name, derived by replacing the simple name with `{name}Vtable`. -/
def super_vtable_type (superTrait : Path) : Path :=
  superTrait.with_simple_name (superTrait.simple_name ++ "Vtable")

/-- The slot type of a method: the source's `VtableItemToFnPtr` clones the
item, calls `make_unsafe`, then `make_raw`, then `to_function_pointer`. -/
def slotFnPtr (it : VtableItem) : FnPtrTy :=
  ((it.promoteU).make_raw).2.to_function_pointer

/-- `vtable::generate_vtable` (src/vtable.rs lines 41–162), as a function
from the stash fields and options it reads to the generated type. -/
def generate_vtable (items : List VtableItem) (name : Ident)
    (superTrait : Option Path) (vis : Visibility)
    (attributes : List Attribute) (dropAbi : Option String)
    (storeLayout : Bool) : GeneratedVtable :=
  let vtable_entries := items.map fun it => VtableField.methodField it.name (slotFnPtr it)
  let debug_impl_lines := items.map fun it =>
    DebugLine.mk it.name (.refE (.castMutUnit (.selfField it.name)))
  let hash_impl_lines := items.map fun it => Expr.callHash (.castMutUnit (.selfField it.name))
  let super_trait_decl :=
    match superTrait with
    | some st => [VtableField.superField (super_vtable_type st)]
    | none => []
  let size_and_align :=
    if storeLayout then [VtableField.sizeField, VtableField.alignField] else []
  let drop_func :=
    if superTrait.isNone then [VtableField.dropField dropAbi] else []
  let drop_impl :=
    if superTrait.isSome then DropImpl.forwardToSuper else DropImpl.callLocalDrop
  { derives := ["Copy", "Clone"]
    attributes := all_attributes attributes
    vis := vis
    name := name
    fields := super_trait_decl ++ size_and_align ++ vtable_entries ++ drop_func
    dropImpl := drop_impl
    debugName := name
    debugLines := debug_impl_lines
    hashLines := hash_impl_lines }

/-- Whether a vtable field is the local destructor slot. -/
def VtableField.isDrop : VtableField → Bool
  | .dropField _ => true
  | _ => false

/-- Resolution of `invoke_drop` along an extension chain listed
derived-first with the root last: a `forwardToSuper` body steps to the
embedded super-table, `callLocalDrop` stops.  Returns the number of
forwarding steps taken, `none` when the chain is exhausted without
reaching a local destructor slot. -/
def dropResolutionSteps : List GeneratedVtable → Option Nat
  | [] => none
  | v :: rest =>
    match v.dropImpl with
    | .callLocalDrop => some 0
    | .forwardToSuper => (dropResolutionSteps rest).map (· + 1)

/-! ## The representation generator (src/repr.rs) -/

/-- `repr::nth_arg`: the collision-avoiding argument name. -/
def nth_arg (n : Nat) : Ident := "__thintraitobjectmacro_arg" ++ toString n

/-- `repr::to_nth_thunk_arg`: erase a receiver to the untyped pointer and
make sure the argument has a name (`nth_arg n` when it had none). -/
def to_nth_thunk_arg (arg : VtableFnArg) (n : Nat) : BareFnArg :=
  let b := arg.into_bare_arg_with_ptr_receiver
  { b with name := some (b.name.getD (nth_arg n)) }

/-- The `thunk_call_args` iterator of `generate_vtable_and_thunks`: the
inputs after the receiver slot, decorated with names, counting from 1. -/
def thunkCallArgsFrom : List VtableFnArg → Nat → List BareFnArg
  | [], _ => []
  | a :: rest, n => to_nth_thunk_arg a n :: thunkCallArgsFrom rest (n + 1)

/-- One entry of the generated vtable constant: either a reference to a
synthesized thunk (`name: Self::#thunk_name`, `write_vtable_thunk_entry`)
or a direct reference to the implementing type's method
(`name: <Generic0 as Trait>::name`, `write_vtable_single_hop_entry`). -/
inductive VtableConstEntry where
  | thunkEntry (name thunkName : Ident)
  | directEntry (name traitName : Ident)
  deriving DecidableEq, Repr

/-- A synthesized forwarding function (`repr::write_thunk`): its full
signature, the method it calls on the wrapped value, and the argument
names it forwards. -/
structure Thunk where
  signature : Signature
  callName : Ident
  callArgs : List Ident
  deriving DecidableEq, Repr

/-- `repr::generate_vtable_and_thunks` (src/repr.rs lines 127–182): walks
the vtable entries; the predicate decides thunk vs. direct per entry
(consulted on the untouched entry, before receiver erasure). -/
def generate_vtable_and_thunks (traitName reprName : Ident) :
    List VtableItem → (VtableItem → Bool) →
    List VtableConstEntry × List Thunk
  | [], _ => ([], [])
  | e :: rest, double_hop_predicate =>
    let tail := generate_vtable_and_thunks traitName reprName rest double_hop_predicate
    let double_hop := double_hop_predicate e
    let raw := e.make_raw
    let entry := if raw.1 then raw.2.promoteU else raw.2
    let thunk_call_args := thunkCallArgsFrom (entry.inputs.drop 1) 1
    if double_hop then
      let name := entry.name
      let thunk_name := "__thintraitobjectmacro_thunk_" ++ entry.name
      let thunk_signature :=
        { entry.into_signature nth_arg with ident := thunk_name }
      (.thunkEntry name thunk_name :: tail.1,
       -- the names were all filled in by `to_nth_thunk_arg`, so the
       -- source's `arg.name.unwrap()` never panics; `getD ""` is dead
       ⟨thunk_signature, name, thunk_call_args.map fun a => a.name.getD ""⟩ :: tail.2)
    else
      (.directEntry entry.name traitName :: tail.1, tail.2)

/-- `repr::repr_name_from_trait_name`. -/
def repr_name_from_trait_name (traitName : Ident) : Ident :=
  "__ThinTraitObjectMacro_ReprFor" ++ traitName

/-- The type of the repr struct's vtable field: the vtable type itself
(inline) or a `&'static` reference to it. -/
inductive ReprFieldTy where
  | vtableValue (vt : Ident)
  | vtableStaticRef (vt : Ident)
  deriving DecidableEq, Repr

/-- The two fields of the generated repr struct, in declaration order. -/
inductive ReprField where
  | vtableField (ty : ReprFieldTy)
  | valueField
  deriving DecidableEq, Repr

/-- How the constructor initializes the vtable field: copy the table
constant by value (`Self::__THINTRAITOBJECTMACRO_VTABLE`) or borrow it
(`&Self::__THINTRAITOBJECTMACRO_VTABLE`). -/
inductive CtorVtableInit where
  | copyVtableConst
  | refVtableConst
  deriving DecidableEq, Repr

/-- One initializer of the generated vtable constant, in the order the
`quote!` template at src/repr.rs lines 94–99 writes them. -/
inductive VtableConstInitEntry where
  | initSuper (superReprName : Path)
  | initSize
  | initAlign
  | methodInit (e : VtableConstEntry)
  | initDrop
  deriving DecidableEq, Repr

/-- The construction operation (`__thintraitobjectmacro_repr_create`):
`#path_to_box::into_raw(#path_to_box::new(#ctor_val)) as *mut #vtable_name`. -/
structure CreateFn where
  pathToBox : Path
  ctor : CtorVtableInit
  castTo : Ident
  deriving DecidableEq, Repr

/-- The generated repr struct, its table constant, constructor, destructor
thunk, and method thunks, as structured data. -/
structure GeneratedRepr where
  reprC : Bool
  name : Ident
  fields : List ReprField
  vtableConstInit : List VtableConstInitEntry
  createFn : CreateFn
  dropThunkAbi : Option String
  dropThunkCastsTo : Ident
  thunks : List Thunk
  deriving DecidableEq, Repr

/-- `repr::generate_repr` (src/repr.rs lines 12–120).  Note the hardcoded
`|_| true // TODO` double-hop predicate of the source: every method is
routed through a thunk. -/
def generate_repr (reprName vtableName traitName : Ident)
    (superTrait : Option Path) (vtableItems : List VtableItem)
    (inline_vtable : Bool) (path_to_box : Path) (dropAbi : Option String)
    (storeLayout : Bool) : GeneratedRepr :=
  let vt := generate_vtable_and_thunks traitName reprName vtableItems fun _ => true
  let branch :=
    if inline_vtable then (ReprFieldTy.vtableValue vtableName, CtorVtableInit.copyVtableConst)
    else (ReprFieldTy.vtableStaticRef vtableName, CtorVtableInit.refVtableConst)
  let size_and_align :=
    if storeLayout then [VtableConstInitEntry.initSize, VtableConstInitEntry.initAlign] else []
  let init_super_type :=
    match superTrait with
    | some st =>
      [VtableConstInitEntry.initSuper
        (st.with_simple_name (repr_name_from_trait_name st.simple_name))]
    | none => []
  let init_drop := if superTrait.isNone then [VtableConstInitEntry.initDrop] else []
  { reprC := true
    name := reprName
    fields := [.vtableField branch.1, .valueField]
    vtableConstInit :=
      init_super_type ++ size_and_align ++ vt.1.map .methodInit ++ init_drop
    createFn := ⟨path_to_box, branch.2, vtableName⟩
    dropThunkAbi := dropAbi
    dropThunkCastsTo := reprName
    thunks := vt.2 }

/-- `attr::path_to_box` with the `std` feature: `::std::boxed::Box`. -/
def path_to_box : Path := ⟨true, ["std", "boxed", "Box"]⟩

/-- Heap model for the construction operation: a heap is the list of live
allocations, `Box::new` appends one cell and yields its address. -/
def box_new {α : Type} (heap : List α) (v : α) : List α × Nat :=
  (heap ++ [v], heap.length)

/-- `Box::into_raw` releases the box and hands the same address over. -/
def box_into_raw {α : Type} (p : List α × Nat) : List α × Nat := p

/-- The body of `__thintraitobjectmacro_repr_create` under the heap model:
`Box::into_raw(Box::new(v))`. -/
def eval_repr_create {α : Type} (heap : List α) (v : α) : List α × Nat :=
  box_into_raw (box_new heap v)

/-! ## Target mode, stash, and the extension resolver (src/attr.rs, src/inheritance.rs) -/

/-- `attr::TargetImpl`: generation targets one concrete boxed-handle type,
or every type implementing the synthesized capability trait. -/
inductive TargetImpl where
  | specificTraitObject (name : Ident) (hasElidedLifetime : Bool)
  | blanketTrait (traitName : Ident) (vtableMethod : Ident)
  deriving DecidableEq, Repr

/-- `TargetImpl::data_ptr_method_name`. -/
def TargetImpl.data_ptr_method_name : TargetImpl → Ident
  | .specificTraitObject _ _ => "as_raw"
  | .blanketTrait _ _ => "data_ptr"

/-- `TargetImpl::vtable_method_name`. -/
def TargetImpl.vtable_method_name : TargetImpl → Ident
  | .specificTraitObject _ _ => "vtable"
  | .blanketTrait _ m => m

/-- `attr::StageStash`: the shared carrier threaded through the stages. -/
structure StageStash where
  trait_name : Ident
  vtable_name : Ident
  repr_name : Ident
  target_impl : TargetImpl
  super_trait : Option Path
  trait_object_name : Ident
  trait_object_elided : Bool
  vtable_items : List VtableItem
  deriving DecidableEq, Repr

/-- `inheritance::blanket_trait_name` for a plain interface name (the
`IdentOrPath` instance for `Ident`; see `Path.simple_name` for the
modelling note): `ThinTraitObject_Implements_{name}`. -/
def blanket_trait_name (targetTrait : Ident) : Ident :=
  "ThinTraitObject_Implements_" ++ targetTrait

/-- `inheritance::blanket_trait_name` for a path super-interface: replaces
the simple name the same way. -/
def blanket_trait_name_path (targetTrait : Path) : Path :=
  targetTrait.with_simple_name (blanket_trait_name targetTrait.simple_name)

/-- `inheritance::vtable_method_name`: `vtable_{name}`. -/
def vtable_method_name (targetTrait : Ident) : Ident := "vtable_" ++ targetTrait

/-- `inheritance::InheritanceConfig`. -/
structure InheritanceConfig where
  extendsSuper : Option Path
  possible_super_trait : Bool
  deriving DecidableEq, Repr

/-- The emitted possible-super-interface artifacts
(`inheritance::PossibleSuperTrait`): the capability trait declaration
(two methods, `data_ptr` and `vtable_{trait}`) plus its impl for the
specific boxed-handle type. -/
structure PossibleSuperTraitOut where
  target_trait : Ident
  vtable_type : Ident
  vis : Visibility
  blanketTraitName : Ident
  vtableMethod : Ident
  hasBlanketImpl : Bool
  deriving DecidableEq, Repr

/-- `inheritance::handle_possible_super_trait` (src/inheritance.rs lines
56–99): under the flag, insists the vtable name equals the default
derivation, emits the capability trait + impl, and switches the stash's
target mode to the blanket-capability mode. -/
def handle_possible_super_trait (stash : StageStash) (vis : Visibility)
    (config : InheritanceConfig) :
    Except SynError (Option PossibleSuperTraitOut × StageStash) :=
  if config.possible_super_trait then
    if stash.vtable_name ≠ (super_vtable_type (identToPath stash.trait_name)).simple_name then
      .error .customVtableNameUnsupported
    else
      let btn := blanket_trait_name stash.trait_name
      let vmn := vtable_method_name stash.trait_name
      .ok (some ⟨stash.trait_name, stash.vtable_name, vis, btn, vmn, true⟩,
        { stash with target_impl := .blanketTrait btn vmn })
  else .ok (none, stash)

/-- The emitted extends-impl (`inheritance::ExtendsSuperTrait`). -/
structure ExtendsOut where
  our_target : TargetImpl
  super_trait : Path
  super_trait_blanket_impl : Path
  super_vtable_ty : Path
  deriving DecidableEq, Repr

/-- `inheritance::handle_extends` (src/inheritance.rs lines 166–182). -/
def handle_extends (stash : StageStash) (config : InheritanceConfig) :
    Except SynError (Option ExtendsOut) :=
  match config.extendsSuper with
  | some st =>
    .ok (some ⟨stash.target_impl, st, blanket_trait_name_path st, super_vtable_type st⟩)
  | none => .ok none

/-! ## The boxed-handle generator (src/trait_object.rs) -/

/-- The handle's zero-size marker: `PhantomData<&'static ()>` when the
interface carries a `'static` bound, `PhantomData<&'inner ()>` otherwise. -/
inductive PhantomKind where
  | staticRef
  | innerRef
  deriving DecidableEq, Repr

/-- The two fields of the generated handle tuple struct. -/
inductive HandleField where
  | nonNullVtable (vt : Ident)
  | phantomField (k : PhantomKind)
  deriving DecidableEq, Repr

/-- The generated boxed handle and its inherent/trait impls, as structured
data. -/
structure GeneratedTraitObject where
  attributes : List Attribute
  reprTransparent : Bool
  vis : Visibility
  name : Ident
  hasLifetimeParam : Bool
  fields : List HandleField
  vtableGetterInline : Bool
  castFuncsForSuper : Option Path
  forwardedMethods : List Ident
  vtableMethodUsed : Ident
  dataPtrMethodUsed : Ident
  markerImpls : List (Bool × Path)
  dropCallsInvokeDrop : Bool
  deriving DecidableEq, Repr

/-- `trait_object::check_attribute`: `derive` and `repr` attributes on the
handle type are hard errors. -/
def check_attribute (a : Attribute) : Except SynError Unit :=
  match a.path.segments.head? with
  | some i =>
    if i = "derive" then .error .deriveOnTraitObject
    else if i = "repr" then .error .reprOnTraitObject
    else .ok ()
  | none => .ok ()

/-- The attribute validation loop of `generate_trait_object`
(`try_for_each(check_attribute)`). -/
def checkAttributes : List Attribute → Except SynError Unit
  | [] => .ok ()
  | a :: rest => do
    check_attribute a
    checkAttributes rest

/-- `trait_object::generate_trait_object` (src/trait_object.rs lines
31–266). -/
def generate_trait_object (stash : StageStash) (vis : Visibility)
    (inline_vtable : Bool) (has_static_bound : Bool)
    (attributes : List Attribute) (markers : List MarkerTrait) :
    Except SynError GeneratedTraitObject := do
  checkAttributes attributes
  let phantom := if has_static_bound then PhantomKind.staticRef else PhantomKind.innerRef
  .ok
    { attributes := attributes
      reprTransparent := true
      vis := vis
      name := stash.trait_object_name
      hasLifetimeParam := !has_static_bound
      fields := [.nonNullVtable stash.vtable_name, .phantomField phantom]
      vtableGetterInline := inline_vtable
      castFuncsForSuper := stash.super_trait
      forwardedMethods := stash.vtable_items.map (·.name)
      vtableMethodUsed := stash.target_impl.vtable_method_name
      dataPtrMethodUsed := stash.target_impl.data_ptr_method_name
      markerImpls := markers.map fun m => (m.uflag, m.path)
      dropCallsInvokeDrop := true }

/-! ## Configuration resolution (src/options.rs, src/attr.rs `Config`) -/

/-- `options::OutputAdditions`: attributes, visibility and name of a
`vtable(...)`/`trait_object(...)` customization. -/
structure OutputAdditions where
  attributes : List Attribute
  visibility : Visibility
  name : Ident
  deriving DecidableEq, Repr

/-- `options::InheritanceOption`: one entry of the `inheritance(...)`
sub-record. -/
inductive InheritanceOption where
  | extendsOpt (superType : Path)
  | possibleSuperTraitOpt (val : Bool)
  deriving DecidableEq, Repr

/-- `options::AttrOption`: one parsed configuration entry. -/
inductive AttrOption where
  | vtableOpt (additions : OutputAdditions)
  | inlineVtableOpt (val : Bool)
  | traitObjectOpt (additions : OutputAdditions)
  | dropAbiOpt (abi : String)
  | markerTraitsOpt (markerTraits : List MarkerTrait)
  | storeLayoutOpt (val : Bool)
  | inheritanceOpt (options : List InheritanceOption)
  deriving DecidableEq, Repr

/-- `attr::Config`. -/
structure Config where
  vtable_attributes : List Attribute
  vtable_visibility : Option Visibility
  vtable_name : Option Ident
  inline_vtable : Bool
  trait_object_attributes : List Attribute
  trait_object_visibility : Option Visibility
  trait_object_name : Option Ident
  drop_abi : Option String
  marker_traits : Option (List MarkerTrait)
  store_layout : Bool
  inheritance : Option InheritanceConfig
  deriving DecidableEq, Repr

/-- `impl Default for Config` (src/attr.rs lines 198–214). -/
def Config.default : Config :=
  ⟨[], none, none, false, [], none, none, none, none, false, none⟩

/-- The loop body of `InheritanceConfig::from` (src/inheritance.rs lines
189–206): each entry overwrites its field; no duplicate detection (see the
source's `TODO: Detect duplicates?`). -/
def inheritanceStep (c : InheritanceConfig) : InheritanceOption → InheritanceConfig
  | .extendsOpt st => { c with extendsSuper := some st }
  | .possibleSuperTraitOpt v => { c with possible_super_trait := v }

/-- `impl Default for InheritanceConfig`. -/
def InheritanceConfig.default : InheritanceConfig := ⟨none, false⟩

/-- `InheritanceConfig::from`. -/
def InheritanceConfig.fromOptions (opts : List InheritanceOption) : InheritanceConfig :=
  opts.foldl inheritanceStep InheritanceConfig.default

/-- The loop body of `Config::from` (src/attr.rs lines 157–194): each
option overwrites the fields it carries. -/
def configStep (c : Config) : AttrOption → Config
  | .vtableOpt a =>
    { c with vtable_attributes := a.attributes,
             vtable_visibility := some a.visibility,
             vtable_name := some a.name }
  | .inlineVtableOpt v => { c with inline_vtable := v }
  | .traitObjectOpt a =>
    { c with trait_object_attributes := a.attributes,
             trait_object_visibility := some a.visibility,
             trait_object_name := some a.name }
  | .dropAbiOpt abi => { c with drop_abi := some abi }
  | .markerTraitsOpt ms => { c with marker_traits := some ms }
  | .storeLayoutOpt v => { c with store_layout := v }
  | .inheritanceOpt opts =>
    { c with inheritance := some (InheritanceConfig.fromOptions opts) }

/-- `Config::from`. -/
def Config.fromOptions (opts : List AttrOption) : Config :=
  opts.foldl configStep Config.default

/-- The value of the LAST occurrence of a key in an option list, through a
projection returning `some` exactly on that key's entries. -/
def lastSet {ο β : Type} (pick : ο → Option β) : List ο → Option β
  | [] => none
  | o :: rest => (lastSet pick rest).orElse fun _ => pick o

/-! ## The driver (src/attr.rs `attribute_main`) -/

/-- Everything the transformation emits on success (the driver splices the
untouched trait declaration back in; that is outside the model). -/
structure MacroOutput where
  vtable : GeneratedVtable
  reprOut : GeneratedRepr
  traitObject : GeneratedTraitObject
  possibleSuper : Option PossibleSuperTraitOut
  extendsImpl : Option ExtendsOut
  deriving DecidableEq, Repr

/-- `syn::ItemTrait`, restricted to the fields `attribute_main` reads. -/
structure ItemTrait where
  vis : Visibility
  ident : Ident
  genericParams : List GenericParam
  supertraits : List TypeParamBound
  items : List TraitItem
  deriving DecidableEq, Repr

/-- The custom marker filter built in `attribute_main` when the
configuration overrides the marker list: only the exact configured paths
are recognized. -/
def customMarkerFilter (ms : List MarkerTrait) (bound : TraitBound) :
    Option (TraitBound × Bool) :=
  ms.findSome? fun m => if bound.path = m.path then some (bound, m.uflag) else none

/-- The marker filter `attribute_main` hands to the splitter. -/
def markerFilterOf : Option (List MarkerTrait) → TraitBound → Option (TraitBound × Bool)
  | none => default_marker_filter
  | some ms => customMarkerFilter ms

/-- `attr::attribute_main` (src/attr.rs lines 27–142), from the parsed
option list and trait declaration (the textual front-end is out of scope
per the spec) to the emitted artifacts.  `experimental` models
`cfg!(feature = "experimental-inheritance")`. -/
def attribute_main (options : List AttrOption) (trait_def : ItemTrait)
    (experimental : Bool) : Except SynError MacroOutput := do
  let config := Config.fromOptions options
  if trait_def.genericParams ≠ [] then
    throw .genericTraitUnsupported
  let vtableName := config.vtable_name.getD (trait_def.ident ++ "Vtable")
  let traitObjectName := config.trait_object_name.getD ("Boxed" ++ trait_def.ident)
  let vtableVis := config.vtable_visibility.getD trait_def.vis
  let vtableItems ← trait_def.items.mapM VtableItem.tryFromItem
  let split := supertraits_to_markers_and_lifetimes trait_def.supertraits
    (markerFilterOf config.marker_traits)
  let has_static_bound := split.2.any fun lt => lt.ident = "static"
  let reprName := repr_name_from_trait_name trait_def.ident
  let stash0 : StageStash :=
    { trait_name := trait_def.ident
      target_impl := .specificTraitObject traitObjectName (!has_static_bound)
      super_trait := config.inheritance.bind (·.extendsSuper)
      vtable_name := vtableName
      trait_object_name := traitObjectName
      trait_object_elided := !has_static_bound
      repr_name := reprName
      vtable_items := vtableItems }
  let step1 ←
    match config.inheritance with
    | some inh =>
      if !experimental then throw .inheritanceRequiresFeature
      else do
        let pst ← handle_possible_super_trait stash0 vtableVis inh
        let ext ← handle_extends pst.2 inh
        pure (pst.1, ext, pst.2)
    | none => pure (none, none, stash0)
  let stash1 := step1.2.2
  let vtable := generate_vtable stash1.vtable_items stash1.vtable_name
    stash1.super_trait vtableVis config.vtable_attributes config.drop_abi
    config.store_layout
  let reprOut := generate_repr stash1.repr_name stash1.vtable_name
    stash1.trait_name stash1.super_trait stash1.vtable_items
    config.inline_vtable path_to_box config.drop_abi config.store_layout
  let traitObject ← generate_trait_object stash1
    (config.trait_object_visibility.getD trait_def.vis) config.inline_vtable
    has_static_bound config.trait_object_attributes split.1
  pure ⟨vtable, reprOut, traitObject, step1.1, step1.2.1⟩

/-! ## Auxiliary definitions used by the statements -/

/-- The spec's `MissingReceiver` diagnostic class (§4.1): it explicitly
"covers both free-function-style items and by-value receivers", i.e. the
two rejection sites for methods lacking a by-reference receiver. -/
def SynError.isMissingReceiverClass : SynError → Bool
  | .assocFnUnsupported => true
  | .byValueReceiverUnsupported => true
  | _ => false

/-- The method-slot initializers of a vtable constant, in order. -/
def methodInitEntries : List VtableConstInitEntry → List VtableConstEntry :=
  List.filterMap fun e =>
    match e with
    | .methodInit x => some x
    | _ => none

/-- The field order the spec claims for the generated table type, written
from the claim's words: super-table field first (present exactly when a
super-interface is configured), then size and align (present exactly when
store_layout is enabled), then one slot per method in declaration order,
then — only without a super-interface — the destructor slot last. -/
def claimedFieldOrder (items : List VtableItem) (superTrait : Option Path)
    (dropAbi : Option String) (storeLayout : Bool) : List VtableField :=
  (if h : superTrait.isSome then [.superField (super_vtable_type (superTrait.get h))] else [])
  ++ (if storeLayout then [.sizeField, .alignField] else [])
  ++ items.map (fun it => .methodField it.name (slotFnPtr it))
  ++ (if superTrait.isSome then [] else [.dropField dropAbi])

/-- A non-root link of an extension chain: the generation inputs of one
derived interface's table, whose configuration names a super-interface. -/
structure VtChainLink where
  items : List VtableItem
  name : Ident
  superP : Path
  vis : Visibility
  attrs : List Attribute
  dropAbi : Option String
  storeLayout : Bool

/-- The table generated for a chain link. -/
def linkTable (l : VtChainLink) : GeneratedVtable :=
  generate_vtable l.items l.name (some l.superP) l.vis l.attrs l.dropAbi l.storeLayout

/-- Projections selecting one configuration key's occurrences. -/
def pickVtableAttrs : AttrOption → Option (List Attribute)
  | .vtableOpt a => some a.attributes
  | _ => none

def pickVtableVis : AttrOption → Option (Option Visibility)
  | .vtableOpt a => some (some a.visibility)
  | _ => none

def pickVtableName : AttrOption → Option (Option Ident)
  | .vtableOpt a => some (some a.name)
  | _ => none

def pickInlineVtable : AttrOption → Option Bool
  | .inlineVtableOpt v => some v
  | _ => none

def pickTraitObjectAttrs : AttrOption → Option (List Attribute)
  | .traitObjectOpt a => some a.attributes
  | _ => none

def pickTraitObjectVis : AttrOption → Option (Option Visibility)
  | .traitObjectOpt a => some (some a.visibility)
  | _ => none

def pickTraitObjectName : AttrOption → Option (Option Ident)
  | .traitObjectOpt a => some (some a.name)
  | _ => none

def pickDropAbi : AttrOption → Option (Option String)
  | .dropAbiOpt abi => some (some abi)
  | _ => none

def pickMarkerTraits : AttrOption → Option (Option (List MarkerTrait))
  | .markerTraitsOpt ms => some (some ms)
  | _ => none

def pickStoreLayout : AttrOption → Option Bool
  | .storeLayoutOpt v => some v
  | _ => none

def pickInheritance : AttrOption → Option (Option InheritanceConfig)
  | .inheritanceOpt os => some (some (InheritanceConfig.fromOptions os))
  | _ => none

def pickExtends : InheritanceOption → Option (Option Path)
  | .extendsOpt st => some (some st)
  | _ => none

def pickPossibleSuperTrait : InheritanceOption → Option Bool
  | .possibleSuperTraitOpt v => some v
  | _ => none

/-! ## Concrete inputs for the closed statements -/

/-- `&self`. -/
def refSelf : Receiver := ⟨[], some none, false⟩

/-- `fn foo(&self);`. -/
def fooSig : Signature :=
  ⟨false, false, false, none, "foo", ⟨[], false⟩, [.receiver refSelf], false, .named "()"⟩

/-- `trait Foo { fn foo(&self); }` with no supertraits. -/
def fooTrait : ItemTrait := ⟨.publ, "Foo", [], [], [.methodI ⟨fooSig⟩]⟩

/-- `trait Foo: 'static { fn foo(&self); }`. -/
def fooTraitStatic : ItemTrait :=
  ⟨.publ, "Foo", [], [.lifetimeB ⟨"static"⟩], [.methodI ⟨fooSig⟩]⟩

/-- The canonical descriptor of `fn foo(&self);`. -/
def fooItem : VtableItem := ⟨[], false, none, "foo", [.receiver refSelf], false, .named "()"⟩

/-- `fn get(self) -> i32;` — by-value receiver. -/
def getByValSig : Signature :=
  ⟨false, false, false, none, "get", ⟨[], false⟩, [.receiver ⟨[], none, false⟩], false,
    .named "i32"⟩

/-- A trait whose only item is the by-value-receiver method. -/
def traitGetByVal : ItemTrait := ⟨.publ, "Foo", [], [], [.methodI ⟨getByValSig⟩]⟩

/-- `fn author() -> String;` — free-function-style item, no receiver. -/
def freeFnSig : Signature :=
  ⟨false, false, false, none, "author", ⟨[], false⟩, [], false, .named "String"⟩

/-- A trait whose only item is the free-function-style method. -/
def traitFreeFn : ItemTrait := ⟨.publ, "Foo", [], [], [.methodI ⟨freeFnSig⟩]⟩

/-- A configuration that customizes the table type name to the value the
default derivation would produce anyway, with the possible-super-interface
flag on. -/
def optsCustomDefaultName : List AttrOption :=
  [.vtableOpt ⟨[], .publ, "FooVtable"⟩, .inheritanceOpt [.possibleSuperTraitOpt true]]

/-- The stash state for `trait Foo: 'static { fn foo(&self); }` at the
point the boxed-handle generator runs. -/
def stashFooStatic : StageStash :=
  ⟨"Foo", "FooVtable", repr_name_from_trait_name "Foo",
    .specificTraitObject "BoxedFoo" false, none, "BoxedFoo", false, [fooItem]⟩

/-- The handle generated for `stashFooStatic` (used to instantiate the
amended C9 statement). -/
def gFooStatic : GeneratedTraitObject :=
  ⟨[], true, .publ, "BoxedFoo", false,
    [.nonNullVtable "FooVtable", .phantomField .staticRef], false, none, ["foo"],
    "vtable", "as_raw", [], true⟩

/-- The stash state for plain `trait Foo { fn foo(&self); }` with the
possible-super-interface flag on and the default table name. -/
def stashFooDefault : StageStash :=
  ⟨"Foo", "FooVtable", repr_name_from_trait_name "Foo",
    .specificTraitObject "BoxedFoo" true, none, "BoxedFoo", true, [fooItem]⟩

/-! ## Helper lemmas -/

theorem supertraits_split_eq (f : TraitBound → Option (TraitBound × Bool)) :
    ∀ l : List TypeParamBound,
      supertraits_to_markers_and_lifetimes l f = (acceptedMarkers f l, lifetimeBounds l) := by
  intro l
  induction l with
  | nil => rfl
  | cons b rest ih =>
    cases b with
    | traitB tb =>
      simp only [supertraits_to_markers_and_lifetimes, ih, acceptedMarkers,
        lifetimeBounds, List.filterMap_cons]
      cases f tb with
      | none => rfl
      | some p => rfl
    | lifetimeB lt =>
      simp only [supertraits_to_markers_and_lifetimes, ih, acceptedMarkers,
        lifetimeBounds, List.filterMap_cons]

theorem getD_orElse {β : Type} (x y : Option β) (d : β) :
    (x.orElse fun _ => y).getD d = x.getD (y.getD d) := by
  cases x <;> rfl

theorem foldl_lastSet_general {σ ο β : Type} (step : σ → ο → σ) (f : σ → β)
    (pick : ο → Option β) (hstep : ∀ c o, f (step c o) = (pick o).getD (f c)) :
    ∀ (opts : List ο) (init : σ),
      f (opts.foldl step init) = (lastSet pick opts).getD (f init) := by
  intro opts
  induction opts with
  | nil => intro init; rfl
  | cons o rest ih =>
    intro init
    simp only [List.foldl_cons, lastSet, getD_orElse]
    rw [ih, hstep]

theorem make_raw_name (v : VtableItem) : v.make_raw.2.name = v.name := rfl

theorem gvt_all_thunk (tn rn : Ident) (items : List VtableItem) :
    (generate_vtable_and_thunks tn rn items fun _ => true).1 =
      items.map (fun it => .thunkEntry it.name ("__thintraitobjectmacro_thunk_" ++ it.name)) ∧
    (generate_vtable_and_thunks tn rn items fun _ => true).2.length = items.length := by
  induction items with
  | nil => exact ⟨rfl, rfl⟩
  | cons e rest ih =>
    have hname : (if e.make_raw.1 then e.make_raw.2.promoteU else e.make_raw.2).name = e.name := by
      by_cases h : e.make_raw.1 <;> simp [h, VtableItem.promoteU, make_raw_name]
    simp only [generate_vtable_and_thunks, if_pos, List.map_cons, List.length_cons, hname,
      ih.1, ih.2]
    simp

theorem gen_vtable_dropImpl_some (items : List VtableItem) (name : Ident) (st : Path)
    (vis : Visibility) (attrs : List Attribute) (dropAbi : Option String)
    (storeLayout : Bool) :
    (generate_vtable items name (some st) vis attrs dropAbi storeLayout).dropImpl =
      .forwardToSuper := by
  simp [generate_vtable]

theorem gen_vtable_dropImpl_none (items : List VtableItem) (name : Ident)
    (vis : Visibility) (attrs : List Attribute) (dropAbi : Option String)
    (storeLayout : Bool) :
    (generate_vtable items name none vis attrs dropAbi storeLayout).dropImpl =
      .callLocalDrop := by
  simp [generate_vtable]

theorem methodInitEntries_append (a b : List VtableConstInitEntry) :
    methodInitEntries (a ++ b) = methodInitEntries a ++ methodInitEntries b :=
  List.filterMap_append a b _

theorem methodInitEntries_map (l : List VtableConstEntry) :
    methodInitEntries (l.map .methodInit) = l := by
  induction l with
  | nil => rfl
  | cons a t ih => simp only [List.map_cons, methodInitEntries, List.filterMap_cons] at *; simp [ih]

theorem mapM_items_error (e : SynError) :
    ∀ (pre : List TraitItem) (x : TraitItem) (post : List TraitItem),
      pre.all (fun it => (VtableItem.tryFromItem it).isOk) = true →
      VtableItem.tryFromItem x = .error e →
      (pre ++ x :: post).mapM VtableItem.tryFromItem = .error e := by
  intro pre
  induction pre with
  | nil =>
    intro x post _ hx
    simp only [List.nil_append, List.mapM_cons, hx]
    rfl
  | cons a rest ih =>
    intro x post hall hx
    simp only [List.all_cons, Bool.and_eq_true] at hall
    obtain ⟨b, hb⟩ : ∃ b, VtableItem.tryFromItem a = .ok b := by
      cases h : VtableItem.tryFromItem a with
      | ok b => exact ⟨b, rfl⟩
      | error er => rw [h] at hall; exact absurd hall.1 (by simp [Except.isOk, Except.toBool])
    simp only [List.cons_append, List.mapM_cons, hb, ih x post hall.2 hx]
    rfl

theorem tryFromMethod_no_receiver (m : TraitItemMethod) (h : m.sig.receiver = none) :
    VtableItem.tryFromMethod m = .error .assocFnUnsupported := by
  simp [VtableItem.tryFromMethod, h, throw, throwThe, MonadExceptOf.throw, Bind.bind,
    Except.bind]

theorem tryFromMethod_by_value (m : TraitItemMethod) (r : Receiver)
    (restArgs : List FnArg)
    (hi : m.sig.inputs = .receiver r :: restArgs) (hr : r.reference = none)
    (ha : m.sig.asyncness = false)
    (hg : (generics_to_lifetimes m.sig.generics).isOk = true) :
    VtableItem.tryFromMethod m = .error .byValueReceiverUnsupported := by
  obtain ⟨lts, hl⟩ : ∃ lts, generics_to_lifetimes m.sig.generics = .ok lts := by
    cases hgl : generics_to_lifetimes m.sig.generics with
    | ok x => exact ⟨x, rfl⟩
    | error e => rw [hgl] at hg; exact absurd hg (by simp [Except.isOk, Except.toBool])
  have hrecv : m.sig.receiver = some r := by
    simp [Signature.receiver, hi]
  simp [VtableItem.tryFromMethod, hrecv, ha, hl, hi, List.mapM.loop,
    VtableFnArg.tryFromFnArg, hr, throw, throwThe, MonadExceptOf.throw, Bind.bind,
    Except.bind, Functor.map, Except.map, Pure.pure, Except.pure]

theorem attribute_main_items_error (options : List AttrOption) (trait_def : ItemTrait)
    (experimental : Bool) (e : SynError)
    (hg : trait_def.genericParams = [])
    (hm : trait_def.items.mapM VtableItem.tryFromItem = .error e) :
    attribute_main options trait_def experimental = .error e := by
  simp only [List.mapM] at hm
  simp [attribute_main, hg, hm, Bind.bind, Except.bind, Pure.pure, Except.pure]

/-! ## Claim theorems -/

/-- Claim C5: for every supertype bound list and predicate, the splitter
returns exactly the trait bounds the predicate accepts (in source order,
with the returned path and unsafety) as the marker list and exactly the
lifetime bounds (in source order) as the lifetime list; rejected trait
bounds contribute to neither list, and the splitter is a total function —
no diagnostic exists to report them. -/
theorem capability_lifetime_splitter_ok
    (supertraits : List TypeParamBound)
    (marker_filter : TraitBound → Option (TraitBound × Bool)) :
    (supertraits_to_markers_and_lifetimes supertraits marker_filter).1 =
      acceptedMarkers marker_filter supertraits ∧
    (supertraits_to_markers_and_lifetimes supertraits marker_filter).2 =
      lifetimeBounds supertraits := by
  have h := supertraits_split_eq marker_filter supertraits
  exact ⟨congrArg Prod.fst h, congrArg Prod.snd h⟩

/-- Claim C10: every configuration key resolves to the value of its last
occurrence in the option list (the fold overwrites silently), including
the keys of the `inheritance(...)` sub-record; both resolvers are total
functions, so no duplicate-key diagnostic is ever produced. -/
theorem duplicate_option_last_wins_ok :
    (∀ opts : List AttrOption,
      (Config.fromOptions opts).vtable_attributes = (lastSet pickVtableAttrs opts).getD [] ∧
      (Config.fromOptions opts).vtable_visibility = (lastSet pickVtableVis opts).getD none ∧
      (Config.fromOptions opts).vtable_name = (lastSet pickVtableName opts).getD none ∧
      (Config.fromOptions opts).inline_vtable = (lastSet pickInlineVtable opts).getD false ∧
      (Config.fromOptions opts).trait_object_attributes =
        (lastSet pickTraitObjectAttrs opts).getD [] ∧
      (Config.fromOptions opts).trait_object_visibility =
        (lastSet pickTraitObjectVis opts).getD none ∧
      (Config.fromOptions opts).trait_object_name =
        (lastSet pickTraitObjectName opts).getD none ∧
      (Config.fromOptions opts).drop_abi = (lastSet pickDropAbi opts).getD none ∧
      (Config.fromOptions opts).marker_traits = (lastSet pickMarkerTraits opts).getD none ∧
      (Config.fromOptions opts).store_layout = (lastSet pickStoreLayout opts).getD false ∧
      (Config.fromOptions opts).inheritance = (lastSet pickInheritance opts).getD none) ∧
    (∀ iopts : List InheritanceOption,
      (InheritanceConfig.fromOptions iopts).extendsSuper =
        (lastSet pickExtends iopts).getD none ∧
      (InheritanceConfig.fromOptions iopts).possible_super_trait =
        (lastSet pickPossibleSuperTrait iopts).getD false) := by
  constructor
  · intro opts
    refine ⟨?_, ?_, ?_, ?_, ?_, ?_, ?_, ?_, ?_, ?_, ?_⟩ <;>
      exact foldl_lastSet_general configStep _ _ (by intro c o; cases o <;> rfl) opts
        Config.default
  · intro iopts
    refine ⟨?_, ?_⟩ <;>
      exact foldl_lastSet_general inheritanceStep _ _ (by intro c o; cases o <;> rfl) iopts
        InheritanceConfig.default

/-- Claim C4: the generated table type's fields appear in the order the
spec states — super-table field first (exactly when a super-interface is
configured), then size and align (exactly when store_layout is on), then
one function-pointer slot per method in declaration order, then the
destructor slot last, only without a super-interface. -/
theorem vtable_field_order_ok (items : List VtableItem) (name : Ident)
    (superTrait : Option Path) (vis : Visibility) (attrs : List Attribute)
    (dropAbi : Option String) (storeLayout : Bool) :
    (generate_vtable items name superTrait vis attrs dropAbi storeLayout).fields =
      claimedFieldOrder items superTrait dropAbi storeLayout := by
  cases superTrait <;> cases storeLayout <;>
    simp [generate_vtable, claimedFieldOrder]

/-- Claim C3: with a super-interface configured the table has no local
destructor field and `invoke_drop` forwards to the embedded super-table;
without one the table has exactly one destructor field carrying the
configured calling convention and `invoke_drop` calls it directly; hence
resolving `invoke_drop` along any extension chain terminates at the root
table's single destructor slot. -/
theorem destructor_slot_ok :
    (∀ (items : List VtableItem) (name : Ident) (st : Path) (vis : Visibility)
       (attrs : List Attribute) (dropAbi : Option String) (storeLayout : Bool),
      (generate_vtable items name (some st) vis attrs dropAbi storeLayout).fields.all
        (fun f => !f.isDrop) = true ∧
      (generate_vtable items name (some st) vis attrs dropAbi storeLayout).dropImpl =
        .forwardToSuper) ∧
    (∀ (items : List VtableItem) (name : Ident) (vis : Visibility)
       (attrs : List Attribute) (dropAbi : Option String) (storeLayout : Bool),
      (generate_vtable items name none vis attrs dropAbi storeLayout).fields.filter
        (·.isDrop) = [.dropField dropAbi] ∧
      (generate_vtable items name none vis attrs dropAbi storeLayout).dropImpl =
        .callLocalDrop) ∧
    (∀ (links : List VtChainLink) (items : List VtableItem) (name : Ident)
       (vis : Visibility) (attrs : List Attribute) (dropAbi : Option String)
       (storeLayout : Bool),
      dropResolutionSteps (links.map linkTable ++
        [generate_vtable items name none vis attrs dropAbi storeLayout]) =
        some links.length) := by
  refine ⟨?_, ?_, ?_⟩
  · intro items name st vis attrs dropAbi storeLayout
    cases storeLayout <;>
      simp [generate_vtable, VtableField.isDrop, List.all_eq_true]
  · intro items name vis attrs dropAbi storeLayout
    cases storeLayout <;>
      simp [generate_vtable, VtableField.isDrop, List.filter_append, List.filter_map]
  · intro links items name vis attrs dropAbi storeLayout
    induction links with
    | nil => simp [dropResolutionSteps, gen_vtable_dropImpl_none]
    | cons l rest ih =>
      have hl : (linkTable l).dropImpl = .forwardToSuper :=
        gen_vtable_dropImpl_some l.items l.name l.superP l.vis l.attrs l.dropAbi
          l.storeLayout
      simp [dropResolutionSteps, hl, ih]

/-- Claim C2: the generated representation struct is `#[repr(C)]` with the
table field first (the table type itself when `inline_vtable`, a `&'static`
reference otherwise) and the wrapped value second, and the construction
operation boxes exactly one instance — appending one cell to the heap and
returning that cell's address — cast to a pointer to the table type. -/
theorem repr_layout_and_create_ok (reprName vtableName traitName : Ident)
    (superTrait : Option Path) (items : List VtableItem) (inline_vtable : Bool)
    (ptb : Path) (dropAbi : Option String) (storeLayout : Bool) :
    (generate_repr reprName vtableName traitName superTrait items inline_vtable
      ptb dropAbi storeLayout).reprC = true ∧
    (generate_repr reprName vtableName traitName superTrait items inline_vtable
      ptb dropAbi storeLayout).fields =
      [.vtableField (if inline_vtable then .vtableValue vtableName
        else .vtableStaticRef vtableName), .valueField] ∧
    (generate_repr reprName vtableName traitName superTrait items inline_vtable
      ptb dropAbi storeLayout).createFn =
      ⟨ptb, if inline_vtable then .copyVtableConst else .refVtableConst, vtableName⟩ ∧
    (∀ (α : Type) (heap : List α) (v : α),
      eval_repr_create heap v = (heap ++ [v], heap.length) ∧
      (heap ++ [v]).drop heap.length = [v]) := by
  refine ⟨?_, ?_, ?_, ?_⟩
  · rfl
  · cases inline_vtable <;> simp [generate_repr]
  · cases inline_vtable <;> simp [generate_repr]
  · intro α heap v
    exact ⟨rfl, List.drop_left heap [v]⟩

/-- Claim C7 counterexample: for the concrete accepted input
`trait Foo { fn foo(&self); }` with no extra attributes, the generated
table type's derive list is exactly `Copy, Clone` — it carries no derived
structural-equality implementation, refuting the claim that it does. -/
theorem vtable_equality_derive_counterexample :
    (generate_vtable [fooItem] "FooVtable" none .publ [] none false).derives =
      ["Copy", "Clone"] ∧
    ¬ ("PartialEq" ∈ (generate_vtable [fooItem] "FooVtable" none .publ [] none
      false).derives ∨
       "Eq" ∈ (generate_vtable [fooItem] "FooVtable" none .publ [] none
      false).derives) := by
  refine ⟨rfl, ?_⟩
  decide

/-- Claim C7 (amended): the generated table type derives exactly the
copy/duplication traits `Copy, Clone` (no equality derive), and its debug
and hash implementations cover the method slots, each operating on the
slot cast to a raw pointer (`self.name as *mut ()`). -/
theorem vtable_derives_hash_debug_ok (items : List VtableItem) (name : Ident)
    (superTrait : Option Path) (vis : Visibility) (attrs : List Attribute)
    (dropAbi : Option String) (storeLayout : Bool) :
    (generate_vtable items name superTrait vis attrs dropAbi storeLayout).derives =
      ["Copy", "Clone"] ∧
    (generate_vtable items name superTrait vis attrs dropAbi storeLayout).derives.contains
      "PartialEq" = false ∧
    (generate_vtable items name superTrait vis attrs dropAbi storeLayout).derives.contains
      "Eq" = false ∧
    (generate_vtable items name superTrait vis attrs dropAbi storeLayout).debugLines =
      items.map (fun it => ⟨it.name, .refE (.castMutUnit (.selfField it.name))⟩) ∧
    (generate_vtable items name superTrait vis attrs dropAbi storeLayout).hashLines =
      items.map (fun it => .callHash (.castMutUnit (.selfField it.name))) := by
  refine ⟨rfl, ?_, ?_, rfl, rfl⟩
  · show (["Copy", "Clone"] : List String).contains "PartialEq" = false
    decide
  · show (["Copy", "Clone"] : List String).contains "Eq" = false
    decide

/-- Claim C1 counterexample: for `trait Foo { fn foo(&self); }` with no
inheritance configuration (extension support inactive), the generated
table constant's only method slot is a synthesized thunk and one
forwarding function is generated — refuting the claim that a
non-extensible interface gets direct slots and no thunks. -/
theorem thunk_routing_counterexample :
    (attribute_main [] fooTrait false).map
      (fun o => (methodInitEntries o.reprOut.vtableConstInit, o.reprOut.thunks.length)) =
      .ok ([.thunkEntry "foo" "__thintraitobjectmacro_thunk_foo"], 1) := by
  rfl

/-- Claim C1 (amended): whether or not extension support is active, every
method's slot in the generated table constant is filled with a synthesized
thunk and one forwarding function is generated per method — the source
hardcodes the double-hop predicate to `|_| true` (marked `TODO`), so the
direct path is never selected. -/
theorem thunk_routing_always_thunks (reprName vtableName traitName : Ident)
    (superTrait : Option Path) (items : List VtableItem) (inline_vtable : Bool)
    (ptb : Path) (dropAbi : Option String) (storeLayout : Bool) :
    methodInitEntries (generate_repr reprName vtableName traitName superTrait items
      inline_vtable ptb dropAbi storeLayout).vtableConstInit =
      items.map (fun it => .thunkEntry it.name ("__thintraitobjectmacro_thunk_" ++ it.name)) ∧
    (generate_repr reprName vtableName traitName superTrait items inline_vtable
      ptb dropAbi storeLayout).thunks.length = items.length := by
  have h := gvt_all_thunk traitName reprName items
  constructor
  · cases superTrait <;> cases storeLayout <;>
      simp only [generate_repr, h.1, methodInitEntries_append, methodInitEntries_map,
        Option.isNone] <;>
      simp [methodInitEntries]
  · simpa [generate_repr] using h.2

/-- Claim C6: a method with no receiver at all (free-function style) and a
method with a by-value receiver (`fn get(self) -> i32`) both make the
transformation fail — provided the method is the first offending item, per
the spec's first-error-wins discipline — and both diagnostics belong to
the spec's `MissingReceiver` class, which it defines to cover exactly
these two shapes; the `Except.error` result carries no generated
artifacts. -/
theorem missing_receiver_rejection_ok :
    (∀ (options : List AttrOption) (trait_def : ItemTrait) (experimental : Bool)
       (pre : List TraitItem) (m : TraitItemMethod) (post : List TraitItem),
      trait_def.genericParams = [] →
      trait_def.items = pre ++ .methodI m :: post →
      pre.all (fun it => (VtableItem.tryFromItem it).isOk) = true →
      m.sig.receiver = none →
      attribute_main options trait_def experimental = .error .assocFnUnsupported) ∧
    (∀ (options : List AttrOption) (trait_def : ItemTrait) (experimental : Bool)
       (pre : List TraitItem) (m : TraitItemMethod) (post : List TraitItem)
       (r : Receiver) (restArgs : List FnArg),
      trait_def.genericParams = [] →
      trait_def.items = pre ++ .methodI m :: post →
      pre.all (fun it => (VtableItem.tryFromItem it).isOk) = true →
      m.sig.inputs = .receiver r :: restArgs →
      r.reference = none →
      m.sig.asyncness = false →
      (generics_to_lifetimes m.sig.generics).isOk = true →
      attribute_main options trait_def experimental = .error .byValueReceiverUnsupported) ∧
    (SynError.assocFnUnsupported.isMissingReceiverClass = true ∧
     SynError.byValueReceiverUnsupported.isMissingReceiverClass = true) := by
  refine ⟨?_, ?_, rfl, rfl⟩
  · intro options trait_def experimental pre m post hg hitems hpre hm
    refine attribute_main_items_error options trait_def experimental _ hg ?_
    rw [hitems]
    exact mapM_items_error _ pre _ post hpre (tryFromMethod_no_receiver m hm)
  · intro options trait_def experimental pre m post r restArgs hg hitems hpre hi hr ha hgen
    refine attribute_main_items_error options trait_def experimental _ hg ?_
    rw [hitems]
    exact mapM_items_error _ pre _ post hpre
      (tryFromMethod_by_value m r restArgs hi hr ha hgen)

/-- Claim C6 witness: the concrete rejection scenarios of the spec —
`fn author() -> String;` (no receiver) and `fn get(self) -> i32;`
(by-value receiver) — instantiating both halves of the theorem. -/
theorem missing_receiver_rejection_witness :
    attribute_main [] traitFreeFn false = .error .assocFnUnsupported ∧
    attribute_main [] traitGetByVal false = .error .byValueReceiverUnsupported :=
  ⟨missing_receiver_rejection_ok.1 [] traitFreeFn false [] ⟨freeFnSig⟩ [] rfl rfl rfl rfl,
   missing_receiver_rejection_ok.2.1 [] traitGetByVal false [] ⟨getByValSig⟩ []
     ⟨[], none, false⟩ [] rfl rfl rfl rfl rfl rfl rfl⟩

/-- Claim C8 counterexample: with the possible-super-interface flag on and
the table type name customized to `FooVtable` — which equals the default
derivation for `trait Foo` — the transformation succeeds and emits the
capability trait, refuting the claim that every customized table name
fails with the custom-vtable-name error: the source compares the name's
value against the default, not whether it was customized. -/
theorem custom_vtable_name_counterexample :
    (Config.fromOptions optsCustomDefaultName).vtable_name = some "FooVtable" ∧
    (attribute_main optsCustomDefaultName fooTrait true).isOk = true ∧
    (attribute_main optsCustomDefaultName fooTrait true).map (·.possibleSuper.isSome) =
      .ok true := by
  refine ⟨rfl, rfl, rfl⟩

/-- Claim C8 (amended): under the possible-super-interface flag, the
operation fails with the custom-vtable-name error exactly when the
effective table name differs from the default derivation
`{tt Interface}Vtable`; when the names coincide (in particular when the
name was never customized) it succeeds, emitting the capability trait with
its blanket impl and switching the target mode to Blanket-Capability. -/
theorem possible_super_trait_check_ok (stash : StageStash) (vis : Visibility)
    (cfg : InheritanceConfig) (h : cfg.possible_super_trait = true) :
    handle_possible_super_trait stash vis cfg =
      if stash.vtable_name = stash.trait_name ++ "Vtable" then
        .ok (some ⟨stash.trait_name, stash.vtable_name, vis,
          blanket_trait_name stash.trait_name, vtable_method_name stash.trait_name,
          true⟩,
          { stash with target_impl := (TargetImpl.blanketTrait
              (blanket_trait_name stash.trait_name)
              (vtable_method_name stash.trait_name)) })
      else .error .customVtableNameUnsupported := by
  have hs : (super_vtable_type (identToPath stash.trait_name)).simple_name =
      stash.trait_name ++ "Vtable" := by
    simp [super_vtable_type, identToPath, Path.with_simple_name, Path.simple_name]
  by_cases he : stash.vtable_name = stash.trait_name ++ "Vtable" <;>
    simp [handle_possible_super_trait, h, hs, he]

/-- Claim C8 witness: the default-named stash for `trait Foo` with the
flag on, where the check passes and the blanket-capability switch
happens. -/
theorem possible_super_trait_check_witness :
    handle_possible_super_trait stashFooDefault .publ ⟨none, true⟩ =
      if stashFooDefault.vtable_name = stashFooDefault.trait_name ++ "Vtable" then
        .ok (some ⟨stashFooDefault.trait_name, stashFooDefault.vtable_name, .publ,
          blanket_trait_name stashFooDefault.trait_name,
          vtable_method_name stashFooDefault.trait_name, true⟩,
          { stashFooDefault with
              target_impl := (TargetImpl.blanketTrait
                (blanket_trait_name stashFooDefault.trait_name)
                (vtable_method_name stashFooDefault.trait_name)) })
      else .error .customVtableNameUnsupported :=
  possible_super_trait_check_ok stashFooDefault .publ ⟨none, true⟩ rfl

/-- Claim C9 counterexample: for `trait Foo: 'static { fn foo(&self); }`
the generated handle has no lifetime parameter but its zero-size marker is
NOT omitted — the second field is `PhantomData<&'static ()>` — refuting
the claim that the marker is omitted entirely under a `'static` bound. -/
theorem static_marker_counterexample :
    (attribute_main [] fooTraitStatic false).map
      (fun o => (o.traitObject.fields, o.traitObject.hasLifetimeParam)) =
      .ok ([.nonNullVtable "FooVtable", .phantomField .staticRef], false) := by
  rfl

/-- Claim C9 (amended): with a `'static` bound the handle is emitted
without a lifetime parameter but still carries the zero-size marker, tied
to `'static`; without the bound it has the `'inner` lifetime parameter and
the marker tied to it. -/
theorem handle_lifetime_marker_ok (stash : StageStash) (vis : Visibility)
    (inline_vtable has_static_bound : Bool) (attrs : List Attribute)
    (markers : List MarkerTrait) (g : GeneratedTraitObject)
    (h : generate_trait_object stash vis inline_vtable has_static_bound attrs markers =
      .ok g) :
    g.hasLifetimeParam = !has_static_bound ∧
    g.fields = [.nonNullVtable stash.vtable_name,
      .phantomField (if has_static_bound then .staticRef else .innerRef)] := by
  cases hc : checkAttributes attrs with
  | error e =>
    rw [generate_trait_object] at h
    simp [hc, Bind.bind, Except.bind] at h
  | ok u =>
    rw [generate_trait_object] at h
    simp only [hc, Bind.bind, Except.bind] at h
    cases h
    cases has_static_bound <;> simp

/-- Claim C9 witness: the `'static`-bound `Foo` stash instantiating the
theorem. -/
theorem handle_lifetime_marker_witness :
    gFooStatic.hasLifetimeParam = !true ∧
    gFooStatic.fields = [.nonNullVtable stashFooStatic.vtable_name,
      .phantomField (if true then .staticRef else .innerRef)] :=
  handle_lifetime_marker_ok stashFooStatic .publ false true [] [] gFooStatic rfl

end TTO
